import Mathlib

set_option linter.unusedVariables false

/-!  Shallow embedding of the kaiowa SQL builder core
     (`kaiowa/core/terms.py`, `criteria.py`, `selectables.py`,
     `utils.py`) and proofs about the rendering behaviour. -/

/-- Python scalar values that operand slots typed `Any`/`Filterable`
    may carry and that `Constant` accepts.  Floats go through the same
    source code path as ints (plain `str(value)`), so the embedding
    carries integers and booleans and strings. -/
inductive PyVal where
  | vBool : Bool → PyVal
  | vInt : Int → PyVal
  | vStr : String → PyVal
  deriving DecidableEq

/-- The single-quote character, written via its code point (39). -/
def squoteChar : Char := Char.ofNat 39

/-- The single-quote character as a one-character string. -/
def squote : String := String.singleton squoteChar

/-- The double-quote character as a one-character string. -/
def dquote : String := "\""

/-- Python `str(value)` on a bare scalar, which is what an f-string
    interpolation does to an operand that was never lifted into a
    `Constant`: the boolean keywords keep Python capitalisation, an
    integer gives its decimal text, a string gives itself unquoted. -/
def pyStr : PyVal → String
  | .vBool b => if b then "True" else "False"
  | .vInt n => toString n
  | .vStr sv => sv

/-- The Python membership test for the single-quote character inside a
    string value, as used by both `utils.quote` and `Constant`. -/
def containsSquote (sv : String) : Bool := sv.data.contains squoteChar

/-- Embedding of `kaiowa.core.utils.quote`: when no quote character is
    given, a string value picks a double quote if it contains a single
    quote and a single quote otherwise, while a non-string value leaves
    `quote_char` as `None` so that `quote_char or ""` contributes no
    quote at all; the value itself is interpolated with `str`. -/
def quote (value : PyVal) (quote_char : Option String) : String :=
  let qc : Option String :=
    match quote_char with
    | none =>
      match value with
      | .vStr sv => some (if containsSquote sv then dquote else squote)
      | _ => none
    | some c => some c
  qc.getD "" ++ pyStr value ++ qc.getD ""

/-- Embedding of `Constant.__init__` from `kaiowa/core/criteria.py`:
    a boolean stores `str(value).upper()` (the text `TRUE` or `FALSE`),
    a string stores the value wrapped by `quote` with a quote character
    chosen to avoid an embedded single quote (no escaping is applied),
    anything else stores `str(value)`. -/
def constVal : PyVal → String
  | .vBool b => if b then "TRUE" else "FALSE"
  | .vStr sv => quote (.vStr sv) (some (if containsSquote sv then dquote else squote))
  | .vInt n => toString n

/-- Reference to a selectable as stored inside a `Field`.  Python keeps
    an object reference; the embedding keeps an index into a store of
    table objects, which gives the same observable behaviour: mutating
    the table through the store is seen by every `Field` that holds the
    index. -/
inductive SelRef where
  | table : Nat → SelRef
  deriving DecidableEq

/-- State of one `Table` object: `_name` set by `__init__`, and the
    `_alias` slot whose class-level default is `None` until `as_` is
    called. -/
structure TableObj where
  name : String
  al : Option String
  deriving DecidableEq

/-- The heap of `Table` objects that `SelRef.table` indices point into. -/
abbrev Store := List TableObj

/-- Python `a or b` for an optional string `a`: `None` and the empty
    string are falsy and fall through to `b`. -/
def pyOr (a : Option String) (b : String) : String :=
  match a with
  | some sv => if sv = "" then b else sv
  | none => b

/-- The `_name` attribute of the table at index `i`.  A missing index
    cannot arise from the source, where the parent is a live object. -/
def tableName (s : Store) (i : Nat) : String :=
  match s[i]? with
  | some t => t.name
  | none => ""

/-- The raw `_alias` slot of the table at index `i`. -/
def tableAliasRaw (s : Store) (i : Nat) : Option String :=
  match s[i]? with
  | some t => t.al
  | none => none

/-- Embedding of the `Table.alias` property: `self._alias or self._name`. -/
def tableAlias (s : Store) (i : Nat) : String :=
  pyOr (tableAliasRaw s i) (tableName s i)

/-- Embedding of `Table.as_`: sets `_alias` on the table object in
    place, modelled as a store update seen by every existing reference. -/
def tableAs (s : Store) (i : Nat) (a : String) : Store :=
  match s[i]? with
  | some t => s.set i (TableObj.mk t.name (some a))
  | none => s

/-- The expression tree built by the `Term`/`Criterion` operator
    methods of `kaiowa/core/terms.py` and `kaiowa/core/criteria.py`.
    Operand slots are typed `Any` in the source and may hold a
    criterion node, a `Field`, or a bare Python scalar that was never
    lifted; the `pyScalar` constructor represents that last case.
    `const` is a `Constant` node, which stores its already-rendered
    text at construction time. -/
inductive Expr where
  | pyScalar : PyVal → Expr
  | field : String → SelRef → Expr
  | const : String → Expr
  | precedence : Expr → Expr
  | equal : Expr → Expr → Expr
  | notEqual : Expr → Expr → Expr
  | lessThan : Expr → Expr → Expr
  | lessEqual : Expr → Expr → Expr
  | greaterThan : Expr → Expr → Expr
  | greaterEqual : Expr → Expr → Expr
  | and_ : Expr → Expr → Expr
  | or_ : Expr → Expr → Expr
  | not_ : Expr → Expr
  | negative : Expr → Expr
  | addition : Expr → Expr → Expr
  | subtraction : Expr → Expr → Expr
  | multiplication : Expr → Expr → Expr
  | division : Expr → Expr → Expr
  | isNull : Expr → Expr
  | isNotNull : Expr → Expr
  | in_ : Expr → List PyVal → Expr
  | notIn : Expr → List PyVal → Expr
  | like : Expr → String → Expr
  | notLike : Expr → String → Expr
  | ilike : Expr → String → Expr
  | notILike : Expr → String → Expr
  | between : Expr → PyVal → PyVal → Expr
  | notBetween : Expr → PyVal → PyVal → Expr
  | distinctFrom : Expr → Expr → Expr
  | notDistinctFrom : Expr → Expr → Expr
  | isTrue : Expr → Expr
  | isNotTrue : Expr → Expr
  | isFalse : Expr → Expr
  | isNotFalse : Expr → Expr
  | isUnknown : Expr → Expr
  | isNotUnknown : Expr → Expr
  deriving DecidableEq

/-- Embedding of the `Constant` class constructor applied to a scalar. -/
def Constant (v : PyVal) : Expr := .const (constVal v)

/-- Tests whether a tree node is a bare, never-lifted Python scalar. -/
def Expr.isPyScalar : Expr → Bool
  | .pyScalar _ => true
  | _ => false

/-- Tests whether a tree node is a `Constant`. -/
def Expr.isConst : Expr → Bool
  | .const _ => true
  | _ => false

/-- Embedding of `Criterion._parse_value`: a bare Python scalar is
    lifted into a `Constant`; any other operand is returned unchanged.
    In the source this helper is called from exactly one place, the
    `Equal.__str__` render method. -/
def parseValue : Expr → Expr
  | .pyScalar v => Constant v
  | e => e

/-- Embedding of `Term.__eq__` and `Criterion.__eq__`:
    `Equal(self, value)` with no lifting of either operand. -/
def opEq (self value : Expr) : Expr := .equal self value

/-- Embedding of `__ne__`: `NotEqual(self, value)`. -/
def opNe (self value : Expr) : Expr := .notEqual self value

/-- Embedding of `__lt__`: `LessThan(self, value)`. -/
def opLt (self value : Expr) : Expr := .lessThan self value

/-- Embedding of `__le__`: `LessEqual(self, value)`. -/
def opLe (self value : Expr) : Expr := .lessEqual self value

/-- Embedding of `__gt__`: `GreaterThan(self, value)`. -/
def opGt (self value : Expr) : Expr := .greaterThan self value

/-- Embedding of `__ge__`: `GreaterEqual(self, value)`. -/
def opGe (self value : Expr) : Expr := .greaterEqual self value

/-- Embedding of `__and__`: `And(self, value)`. -/
def opAnd (self value : Expr) : Expr := .and_ self value

/-- Embedding of `__or__`: `Or(self, value)`. -/
def opOr (self value : Expr) : Expr := .or_ self value

/-- Embedding of `__invert__`: `Not(self)`. -/
def opInvert (self : Expr) : Expr := .not_ self

/-- Embedding of `__neg__`: `Negative(self)`. -/
def opNegate (self : Expr) : Expr := .negative self

/-- Embedding of `__add__`: `Addition(self, other)`. -/
def opAdd (self other : Expr) : Expr := .addition self other

/-- Embedding of `__sub__`: `Subtraction(self, other)`. -/
def opSub (self other : Expr) : Expr := .subtraction self other

/-- Embedding of `__mul__`: `Multiplication(self, other)`. -/
def opMul (self other : Expr) : Expr := .multiplication self other

/-- Embedding of `__truediv__`: `Division(self, other)`. -/
def opDiv (self other : Expr) : Expr := .division self other

/-- Embedding of the reflected `__radd__`: `Addition(other, self)`,
    placing the reflected (scalar) operand on the left, unlifted. -/
def opRadd (self other : Expr) : Expr := .addition other self

/-- Embedding of the reflected `__rsub__`: `Subtraction(other, self)`. -/
def opRsub (self other : Expr) : Expr := .subtraction other self

/-- Embedding of the reflected `__rmul__`: `Multiplication(other, self)`. -/
def opRmul (self other : Expr) : Expr := .multiplication other self

/-- Embedding of the reflected `__rtruediv__`: `Division(other, self)`. -/
def opRdiv (self other : Expr) : Expr := .division other self

/-- Embedding of `Term.in_`: `In(self, values)`. -/
def termIn (self : Expr) (values : List PyVal) : Expr := .in_ self values

/-- Embedding of `Term.not_in`: `NotIn(self, values)`. -/
def termNotIn (self : Expr) (values : List PyVal) : Expr := .notIn self values

/-- The alias a `Field` reads from its parent at render time
    (`self.parent.alias` inside `Field.__str__`). -/
def selAlias (s : Store) : SelRef → String
  | .table i => tableAlias s i

/-- Renderer: embedding of the `__str__` methods of every concrete
    `Criterion`/`Term` node.  It returns the rendered text together
    with the tree as it stands after rendering, because
    `Equal.__str__` first reassigns its right operand in place
    (`self.right = self._parse_value(self.right)`) and only then
    interpolates; every other node keeps its shape with children
    replaced by their own post-render versions. -/
def renderE (s : Store) : Expr → String × Expr
  | .pyScalar v => (pyStr v, .pyScalar v)
  | .field n p => (selAlias s p ++ "." ++ n, .field n p)
  | .const v => (v, .const v)
  | .precedence c =>
    ("(" ++ (renderE s c).1 ++ ")", .precedence (renderE s c).2)
  | .equal l (.pyScalar v) =>
    ((renderE s l).1 ++ " = " ++ constVal v,
      .equal (renderE s l).2 (Constant v))
  | .equal l r =>
    ((renderE s l).1 ++ " = " ++ (renderE s r).1,
      .equal (renderE s l).2 (renderE s r).2)
  | .notEqual l r =>
    ((renderE s l).1 ++ " <> " ++ (renderE s r).1,
      .notEqual (renderE s l).2 (renderE s r).2)
  | .lessThan l r =>
    ((renderE s l).1 ++ " < " ++ (renderE s r).1,
      .lessThan (renderE s l).2 (renderE s r).2)
  | .lessEqual l r =>
    ((renderE s l).1 ++ " <= " ++ (renderE s r).1,
      .lessEqual (renderE s l).2 (renderE s r).2)
  | .greaterThan l r =>
    ((renderE s l).1 ++ " > " ++ (renderE s r).1,
      .greaterThan (renderE s l).2 (renderE s r).2)
  | .greaterEqual l r =>
    ((renderE s l).1 ++ " >= " ++ (renderE s r).1,
      .greaterEqual (renderE s l).2 (renderE s r).2)
  | .and_ l r =>
    ("(" ++ (renderE s l).1 ++ ") AND (" ++ (renderE s r).1 ++ ")",
      .and_ (renderE s l).2 (renderE s r).2)
  | .or_ l r =>
    ("(" ++ (renderE s l).1 ++ ") OR (" ++ (renderE s r).1 ++ ")",
      .or_ (renderE s l).2 (renderE s r).2)
  | .not_ t =>
    ("NOT (" ++ (renderE s t).1 ++ ")", .not_ (renderE s t).2)
  | .negative t =>
    ("-" ++ (renderE s t).1, .negative (renderE s t).2)
  | .addition l r =>
    ("(" ++ (renderE s l).1 ++ ") + (" ++ (renderE s r).1 ++ ")",
      .addition (renderE s l).2 (renderE s r).2)
  | .subtraction l r =>
    ("(" ++ (renderE s l).1 ++ ") - (" ++ (renderE s r).1 ++ ")",
      .subtraction (renderE s l).2 (renderE s r).2)
  | .multiplication l r =>
    ("(" ++ (renderE s l).1 ++ ") * (" ++ (renderE s r).1 ++ ")",
      .multiplication (renderE s l).2 (renderE s r).2)
  | .division l r =>
    ("(" ++ (renderE s l).1 ++ ") / (" ++ (renderE s r).1 ++ ")",
      .division (renderE s l).2 (renderE s r).2)
  | .isNull t =>
    ((renderE s t).1 ++ " IS NULL", .isNull (renderE s t).2)
  | .isNotNull t =>
    ((renderE s t).1 ++ " IS NOT NULL", .isNotNull (renderE s t).2)
  | .in_ l vs =>
    ((renderE s l).1 ++ " IN ("
        ++ String.intercalate "," (vs.map (fun v => quote v none)) ++ ")",
      .in_ (renderE s l).2 vs)
  | .notIn l vs =>
    ((renderE s l).1 ++ " NOT IN ("
        ++ String.intercalate "," (vs.map (fun v => quote v none)) ++ ")",
      .notIn (renderE s l).2 vs)
  | .like t ex =>
    ((renderE s t).1 ++ " LIKE " ++ quote (.vStr ex) none, .like (renderE s t).2 ex)
  | .notLike t ex =>
    ((renderE s t).1 ++ " NOT LIKE " ++ quote (.vStr ex) none, .notLike (renderE s t).2 ex)
  | .ilike t ex =>
    ((renderE s t).1 ++ " ILIKE " ++ quote (.vStr ex) none, .ilike (renderE s t).2 ex)
  | .notILike t ex =>
    ((renderE s t).1 ++ " NOT ILIKE " ++ quote (.vStr ex) none, .notILike (renderE s t).2 ex)
  | .between t st en =>
    ((renderE s t).1 ++ " BETWEEN " ++ pyStr st ++ " AND " ++ pyStr en,
      .between (renderE s t).2 st en)
  | .notBetween t st en =>
    ((renderE s t).1 ++ " NOT BETWEEN " ++ pyStr st ++ " AND " ++ pyStr en,
      .notBetween (renderE s t).2 st en)
  | .distinctFrom l r =>
    ((renderE s l).1 ++ " IS DISTINCT FROM " ++ (renderE s r).1,
      .distinctFrom (renderE s l).2 (renderE s r).2)
  | .notDistinctFrom l r =>
    ((renderE s l).1 ++ " IS NOT DISTINCT FROM " ++ (renderE s r).1,
      .notDistinctFrom (renderE s l).2 (renderE s r).2)
  | .isTrue t =>
    ((renderE s t).1 ++ " IS TRUE", .isTrue (renderE s t).2)
  | .isNotTrue t =>
    ((renderE s t).1 ++ " IS NOT TRUE", .isNotTrue (renderE s t).2)
  | .isFalse t =>
    ((renderE s t).1 ++ " IS FALSE", .isFalse (renderE s t).2)
  | .isNotFalse t =>
    ((renderE s t).1 ++ " IS NOT FALSE", .isNotFalse (renderE s t).2)
  | .isUnknown t =>
    ((renderE s t).1 ++ " IS UNKNOWN", .isUnknown (renderE s t).2)
  | .isNotUnknown t =>
    ((renderE s t).1 ++ " IS NOT UNKNOWN", .isNotUnknown (renderE s t).2)

/-- Shorthand for the rendered text of a node (`str(node)` in Python). -/
def renderStr (s : Store) (e : Expr) : String := (renderE s e).1

/-- Result of an attribute access on a `Table`, distinguishing the
    members found by normal Python attribute lookup from the `Field`
    synthesized by `Selectable.__getattr__` when lookup fails. -/
inductive Attr where
  | strAttr : String → Attr
  | optAttr : Option String → Attr
  | methodAttr : Attr
  | fieldAttr : String → SelRef → Attr
  deriving DecidableEq

/-- Embedding of attribute access on a `Table`.  Python calls
    `Selectable.__getattr__` only when normal lookup fails; normal
    lookup on a `Table` instance finds the instance attribute `_name`,
    the class attributes `_alias`, the `alias` property and the `as_`
    method, and the methods defined on the class and its bases
    (`__init__`, `__repr__`, `__str__`, `__getattr__`).  Note the table
    name is stored only under `_name`: the class defines no `name`
    member, so accessing `name` falls through to `__getattr__` and
    synthesizes a `Field`. -/
def tableGetattr (s : Store) (i : Nat) (key : String) : Attr :=
  if key = "alias" then .strAttr (tableAlias s i)
  else if key = "_name" then .strAttr (tableName s i)
  else if key = "_alias" then .optAttr (tableAliasRaw s i)
  else if key = "as_" then .methodAttr
  else if key = "__init__" then .methodAttr
  else if key = "__repr__" then .methodAttr
  else if key = "__str__" then .methodAttr
  else if key = "__getattr__" then .methodAttr
  else .fieldAttr key (SelRef.table i)

/-- The two operations `Query._operation` can be set to, by `select`
    and `delete` respectively. -/
inductive QOp where
  | select
  | delete
  deriving DecidableEq

/-- The `JoinTypes` enumeration of `kaiowa/core/selectables.py`. -/
inductive JoinTypes where
  | join
  | inner_join
  | outer_join
  | left_join
  | right_join
  | left_outer_join
  | right_outer_join
  | full_outer_join
  | cross_join
  deriving DecidableEq

/-- The `value` string of each `JoinTypes` member. -/
def JoinTypes.value : JoinTypes → String
  | .join => "JOIN"
  | .inner_join => "INNER JOIN"
  | .outer_join => "OUTER JOIN"
  | .left_join => "LEFT JOIN"
  | .right_join => "RIGHT JOIN"
  | .left_outer_join => "LEFT OUTER JOIN"
  | .right_outer_join => "RIGHT OUTER JOIN"
  | .full_outer_join => "FULL OUTER JOIN"
  | .cross_join => "CROSS JOIN"

mutual
/-- A selectable as referenced from a `Query`: either a `Table` in the
    store or a nested `Query` used as a subquery. -/
inductive QSel where
  | table : Nat → QSel
  | query : QueryObj → QSel

/-- One entry of `Query._joins`: `[join_type, selectable, filters]`,
    where `filters` is `None` until `on` is called. -/
inductive JoinRec where
  | mk : JoinTypes → QSel → Option (List Expr) → JoinRec

/-- State of a `Query` object, in field order: `_alias` (from the
    `Selectable` base), `_operation`, `_selectable`, `_joins`,
    `_distinct`, `_only`, `_terms`, `_criteria`. -/
inductive QueryObj where
  | mk : Option String → Option QOp → Option QSel → List JoinRec → Bool → Bool
      → List Expr → List Expr → QueryObj
end

/-- The `_alias` slot of a Query (the `Selectable.alias` property
    returns it unchanged, with no fallback). -/
def QueryObj.al : QueryObj → Option String
  | .mk a _ _ _ _ _ _ _ => a

/-- The `_operation` slot of a Query. -/
def QueryObj.operation : QueryObj → Option QOp
  | .mk _ o _ _ _ _ _ _ => o

/-- The `_selectable` slot of a Query. -/
def QueryObj.selectable : QueryObj → Option QSel
  | .mk _ _ sel _ _ _ _ _ => sel

/-- The `_joins` slot of a Query. -/
def QueryObj.joins : QueryObj → List JoinRec
  | .mk _ _ _ js _ _ _ _ => js

/-- The `_distinct` flag of a Query. -/
def QueryObj.distinctFlag : QueryObj → Bool
  | .mk _ _ _ _ d _ _ _ => d

/-- The `_only` flag of a Query. -/
def QueryObj.onlyFlag : QueryObj → Bool
  | .mk _ _ _ _ _ o _ _ => o

/-- The `_terms` slot of a Query. -/
def QueryObj.terms : QueryObj → List Expr
  | .mk _ _ _ _ _ _ ts _ => ts

/-- The `_criteria` slot of a Query. -/
def QueryObj.criteria : QueryObj → List Expr
  | .mk _ _ _ _ _ _ _ cs => cs

/-- Embedding of `Query.__init__`: everything unset or empty. -/
def QueryObj.init : QueryObj := .mk none none none [] false false [] []

/-- Embedding of `Query.as_`: sets `_alias` and returns the query. -/
def QueryObj.as_ : QueryObj → String → QueryObj
  | .mk _ o sel js d onf ts cs, a => .mk (some a) o sel js d onf ts cs

/-- Embedding of `Query.select`: sets `_operation` to select and
    extends `_terms` with the given terms. -/
def QueryObj.select : QueryObj → List Expr → QueryObj
  | .mk a _ sel js d onf ts cs, ts2 => .mk a (some .select) sel js d onf (ts ++ ts2) cs

/-- Embedding of `Query.delete`: sets `_operation` to delete and the
    `_only` flag to the given value. -/
def QueryObj.delete : QueryObj → Bool → QueryObj
  | .mk a _ sel js d _ ts cs, onf => .mk a (some .delete) sel js d onf ts cs

/-- Embedding of `Query.distinct`: sets the `_distinct` flag. -/
def QueryObj.distinct : QueryObj → QueryObj
  | .mk a o sel js _ onf ts cs => .mk a o sel js true onf ts cs

/-- Embedding of `Query.from_`: sets `_selectable`. -/
def QueryObj.from_ : QueryObj → QSel → QueryObj
  | .mk a o _ js d onf ts cs, sel => .mk a o (some sel) js d onf ts cs

/-- Embedding of `Query.where`: extends `_criteria` with the given
    criteria (additive across calls). -/
def QueryObj.where_ : QueryObj → List Expr → QueryObj
  | .mk a o sel js d onf ts cs, cs2 => .mk a o sel js d onf ts (cs ++ cs2)

/-- Embedding of the join builders: appends
    `[join_type, selectable, None]` to `_joins`. -/
def QueryObj.addJoin : QueryObj → JoinTypes → QSel → QueryObj
  | .mk a o sel js d onf ts cs, jt, s2 => .mk a o sel (js ++ [JoinRec.mk jt s2 none]) d onf ts cs

/-- Embedding of `Query.on`: writes the filters into the last appended
    join record (`self._joins[-1][2] = filters`); an empty join list is
    an `IndexError` in the source, modelled as `none`. -/
def QueryObj.onJoin : QueryObj → List Expr → Option QueryObj
  | .mk a o sel js d onf ts cs, fs =>
    match js.getLast? with
    | none => none
    | some (.mk jt s2 _) => some (.mk a o sel (js.dropLast ++ [JoinRec.mk jt s2 (some fs)]) d onf ts cs)

/-- Python `str(x)` where `x` is an optional string: `None` prints as
    the text `None` inside `format`/f-strings. -/
def pyStrOpt : Option String → String
  | some sv => sv
  | none => "None"

/-- Embedding of `kaiowa.core.utils.make_alias`: appends either
    ` AS <alias>` or ` <alias>` to the query text, interpolating the
    alias with `str`. -/
def make_alias (query : String) (a : Option String) (asKw : Bool) : String :=
  query ++ (if asKw then " AS " else " ") ++ pyStrOpt a

/-- Python `"".join(...)` over a list of fragments. -/
def pyJoin : List String → String
  | [] => ""
  | x :: xs => x ++ pyJoin xs

/-- Embedding of `Query._parse_criteria`: the literal text ` WHERE `
    followed by the SQL text of every stored criterion, joined with no
    connective between them. -/
def parseCriteria (s : Store) (cs : List Expr) : String :=
  " WHERE " ++ pyJoin (cs.map (fun c => renderStr s c))

/-- Errors a render can raise.  `fieldNotCallable` is the `TypeError`
    raised when `Query.__str__` dispatches on an unset operation:
    `getattr(self, "_make_None")` finds no such attribute, so
    `Selectable.__getattr__` synthesizes a `Field`, and calling it
    fails.  `noneAttr` is the `AttributeError` from reading `.alias`
    on a `None` selectable.  `fuelOut` is an artifact of the fuel that
    bounds subquery recursion in the embedding. -/
inductive PyErr where
  | fieldNotCallable
  | noneAttr
  | fuelOut
  deriving DecidableEq

/-- The alias of a selectable as read by the query builders: a table
    answers with its `alias` property, a subquery answers with its
    raw `_alias` (possibly `None`, there is no default). -/
def qselAlias (s : Store) : QSel → Option String
  | .table i => some (tableAlias s i)
  | .query q => q.al

/-- Python `str(selectable)`: a table renders its bare `_name`; a
    subquery renders through `Query.__str__`, supplied here as `sub`. -/
def qselStr (s : Store) (sub : QueryObj → Except PyErr String) : QSel → Except PyErr String
  | .table i => .ok (tableName s i)
  | .query q => sub q

/-- Embedding of `Query._parse_terms`: the SQL text of the stored terms
    joined by commas or, when that text is empty (Python truthiness of
    the joined string), the fallback `<selectable-alias>.*`. -/
def parseTerms (s : Store) (terms : List Expr) (selAl : Option String) : String :=
  let j := String.intercalate "," (terms.map (fun t => renderStr s t))
  if j = "" then pyStrOpt selAl ++ ".*" else j

/-- Embedding of `Query._parse_joins`: for each record, a space, the
    join keyword, a space, the SQL of the selectable with ` AS <alias>`,
    then ` ON ` and the juxtaposed filters when the record has a
    non-empty filter sequence. -/
def parseJoins (s : Store) (sub : QueryObj → Except PyErr String) : List JoinRec → Except PyErr String
  | [] => .ok ""
  | .mk jt sel fs :: rest => do
    let selSql ← qselStr s sub sel
    let onSql :=
      match fs with
      | some l => if l.isEmpty then "" else " ON " ++ pyJoin (l.map (fun c => renderStr s c))
      | none => ""
    let restSql ← parseJoins s sub rest
    pure (" " ++ jt.value ++ " " ++ make_alias selSql (qselAlias s sel) true ++ onSql ++ restSql)

/-- Embedding of `Query._make_select`: `SELECT [DISTINCT]`, the parsed
    terms, `FROM` and the source (a table bare, a subquery in
    parentheses), ` AS <alias>`, then the join clauses and the WHERE
    clause when joins or criteria are present.  Reading `.alias` on an
    unset (`None`) selectable raises. -/
def makeSelect (s : Store) (sub : QueryObj → Except PyErr String) (q : QueryObj) : Except PyErr String :=
  match q.selectable with
  | none => .error .noneAttr
  | some entity => do
    let al := qselAlias s entity
    let terms := parseTerms s q.terms al
    let kw := if q.distinctFlag then "SELECT DISTINCT" else "SELECT"
    let base ←
      match entity with
      | .table i => pure (kw ++ " " ++ terms ++ " FROM " ++ tableName s i)
      | .query qq => (sub qq).map (fun t => kw ++ " " ++ terms ++ " FROM (" ++ t ++ ")")
    let sql := make_alias base al true
    let js ← if q.joins.isEmpty then pure "" else parseJoins s sub q.joins
    pure (sql ++ js ++ (if q.criteria.isEmpty then "" else parseCriteria s q.criteria))

/-- Embedding of `Query._make_delete`: `DELETE FROM [ONLY]`, the
    SQL of the selectable, ` AS <alias>`, and the WHERE clause when criteria
    are present. -/
def makeDelete (s : Store) (sub : QueryObj → Except PyErr String) (q : QueryObj) : Except PyErr String :=
  match q.selectable with
  | none => .error .noneAttr
  | some entity => do
    let eSql ← qselStr s sub entity
    let sql := (if q.onlyFlag then "DELETE FROM ONLY " else "DELETE FROM ") ++ eSql
    let sql := make_alias sql (qselAlias s entity) true
    pure (sql ++ (if q.criteria.isEmpty then "" else parseCriteria s q.criteria))

/-- Embedding of `Query.__str__`: dispatches on `_operation` through
    `getattr(self, f"_make_{self._operation}")`.  With the operation
    unset the attribute name is `_make_None`, normal lookup fails,
    `Selectable.__getattr__` synthesizes a `Field`, and calling it
    raises `TypeError` — modelled as the `fieldNotCallable` error.
    The fuel bounds recursion into subqueries. -/
def strQ (s : Store) : Nat → QueryObj → Except PyErr String
  | 0, _ => .error .fuelOut
  | fuel + 1, q =>
    match q.operation with
    | none => .error .fieldNotCallable
    | some .select => makeSelect s (strQ s fuel) q
    | some .delete => makeDelete s (strQ s fuel) q



/-! Helper lemmas shared by the claim theorems. -/

/-- An operand that is not a bare scalar passes through
    `_parse_value` unchanged. -/
theorem parseValue_of_not_scalar (e : Expr) (h : e.isPyScalar = false) :
    parseValue e = e := by
  cases e <;> simp_all [Expr.isPyScalar, parseValue]

/-- Rendering `Equal` with a non-scalar right operand interpolates both
    operands directly, with no lifting and no parentheses. -/
theorem renderE_equal_of_not_scalar (s : Store) (A B : Expr) (hB : B.isPyScalar = false) :
    renderE s (.equal A B)
      = ((renderE s A).1 ++ " = " ++ (renderE s B).1,
          .equal (renderE s A).2 (renderE s B).2) := by
  cases B <;> simp_all [renderE, Expr.isPyScalar]

/-- The tree a render returns never has a bare scalar at its root when
    the input did not. -/
theorem renderE_snd_not_scalar (s : Store) (e : Expr) (h : e.isPyScalar = false) :
    ((renderE s e).2).isPyScalar = false := by
  cases e
  case equal l r => cases r <;> simp [renderE, Expr.isPyScalar, Constant]
  all_goals simp_all [renderE, Expr.isPyScalar]

/-- Rendering is a fixed point on the tree a render returns: the second
    render reproduces both the text and the tree of the first.  The only
    node whose render changes the tree is `Equal` (its bare-scalar right
    operand is replaced by a `Constant`), and a `Constant` right operand
    then renders to the very text the lifting produced. -/
theorem renderE_render_fix (s : Store) (e : Expr) :
    renderE s ((renderE s e).2) = renderE s e := by
  induction e
  case equal l r ihl ihr =>
    by_cases hr : r.isPyScalar = true
    · obtain ⟨v, rfl⟩ : ∃ v, r = .pyScalar v := by
        cases r <;> simp_all [Expr.isPyScalar]
      have h0 : renderE s (Expr.equal l (.pyScalar v))
          = ((renderE s l).1 ++ " = " ++ constVal v,
              .equal (renderE s l).2 (Constant v)) := rfl
      rw [h0]
      dsimp only
      rw [renderE_equal_of_not_scalar s ((renderE s l).2) (Constant v) rfl, ihl]
      rfl
    · have hr2 : r.isPyScalar = false := by simpa using hr
      have h2 := renderE_snd_not_scalar s r hr2
      rw [renderE_equal_of_not_scalar s l r hr2]
      dsimp only
      rw [renderE_equal_of_not_scalar s ((renderE s l).2) ((renderE s r).2) h2, ihl, ihr]
  all_goals simp_all [renderE, Constant]

/-! Claim theorems. -/

/-- C1 counterexample: the claim says every scalar operand is lifted to
    a `Constant` before node construction, on both sides, so that no
    bare scalar is ever stored in the tree.  In the code the reflected
    `__radd__` stores the scalar left operand bare, and `__eq__` stores
    the scalar right operand bare: the constructed nodes hold a
    `pyScalar`, not a `Constant`. -/
theorem claim_C1_counterexample :
    opRadd (Expr.field "x" (SelRef.table 0)) (Expr.pyScalar (PyVal.vInt 1))
      = Expr.addition (Expr.pyScalar (PyVal.vInt 1)) (Expr.field "x" (SelRef.table 0))
  ∧ Expr.isConst (Expr.pyScalar (PyVal.vInt 1)) = false
  ∧ Expr.isPyScalar (Expr.pyScalar (PyVal.vInt 1)) = true
  ∧ opEq (Expr.field "x" (SelRef.table 0)) (Expr.pyScalar (PyVal.vInt 1))
      = Expr.equal (Expr.field "x" (SelRef.table 0)) (Expr.pyScalar (PyVal.vInt 1)) :=
  ⟨rfl, rfl, rfl, rfl⟩

/-- C1 amended: operator methods store scalar operands bare (including
    the reflected operators, which place the scalar on the left); no
    lifting happens at node construction.  Lifting to `Constant` happens
    only inside the render of `Equal`, which replaces its right operand in
    place via `_parse_value` and interpolates the lifted text. -/
theorem claim_C1_amended (s : Store) (t : Expr) (v : PyVal) :
    opEq t (.pyScalar v) = Expr.equal t (.pyScalar v)
  ∧ opAdd t (.pyScalar v) = Expr.addition t (.pyScalar v)
  ∧ opRadd t (.pyScalar v) = Expr.addition (.pyScalar v) t
  ∧ opRsub t (.pyScalar v) = Expr.subtraction (.pyScalar v) t
  ∧ parseValue (.pyScalar v) = Constant v
  ∧ (renderE s (opEq t (.pyScalar v))).1 = (renderE s t).1 ++ " = " ++ constVal v
  ∧ (renderE s (opEq t (.pyScalar v))).2 = Expr.equal ((renderE s t).2) (Constant v) :=
  ⟨rfl, rfl, rfl, rfl, rfl, rfl, rfl⟩

/-- C2: `where` is additive, so two successive single-criterion calls
    build the same query state as one two-criterion call, the rendered
    statement is therefore identical, and the WHERE clause is the
    SQL text of the criteria juxtaposed in append order with no connective. -/
theorem claim_C2 (s : Store) (fuel : Nat) (q : QueryObj) (c1 c2 : Expr) :
    (q.where_ [c1]).where_ [c2] = q.where_ [c1, c2]
  ∧ strQ s fuel ((q.where_ [c1]).where_ [c2]) = strQ s fuel (q.where_ [c1, c2])
  ∧ parseCriteria s [c1, c2] = " WHERE " ++ renderStr s c1 ++ renderStr s c2 := by
  have h1 : (q.where_ [c1]).where_ [c2] = q.where_ [c1, c2] := by
    cases q
    simp [QueryObj.where_, List.append_assoc]
  refine ⟨h1, by rw [h1], ?_⟩
  simp [parseCriteria, pyJoin, String.append_empty, String.append_assoc]

/-- C3: boolean and arithmetic binary nodes wrap both operands in
    parentheses around the operator, while the six comparison nodes
    interpolate both operands with no parentheses at all. -/
theorem claim_C3 (s : Store) (A B : Expr) (hB : B.isPyScalar = false) :
    renderStr s (opAnd A B) = "(" ++ renderStr s A ++ ") AND (" ++ renderStr s B ++ ")"
  ∧ renderStr s (opOr A B) = "(" ++ renderStr s A ++ ") OR (" ++ renderStr s B ++ ")"
  ∧ renderStr s (opAdd A B) = "(" ++ renderStr s A ++ ") + (" ++ renderStr s B ++ ")"
  ∧ renderStr s (opSub A B) = "(" ++ renderStr s A ++ ") - (" ++ renderStr s B ++ ")"
  ∧ renderStr s (opMul A B) = "(" ++ renderStr s A ++ ") * (" ++ renderStr s B ++ ")"
  ∧ renderStr s (opDiv A B) = "(" ++ renderStr s A ++ ") / (" ++ renderStr s B ++ ")"
  ∧ renderStr s (opEq A B) = renderStr s A ++ " = " ++ renderStr s B
  ∧ renderStr s (opNe A B) = renderStr s A ++ " <> " ++ renderStr s B
  ∧ renderStr s (opLt A B) = renderStr s A ++ " < " ++ renderStr s B
  ∧ renderStr s (opLe A B) = renderStr s A ++ " <= " ++ renderStr s B
  ∧ renderStr s (opGt A B) = renderStr s A ++ " > " ++ renderStr s B
  ∧ renderStr s (opGe A B) = renderStr s A ++ " >= " ++ renderStr s B := by
  refine ⟨rfl, rfl, rfl, rfl, rfl, rfl, ?_, rfl, rfl, rfl, rfl, rfl⟩
  show (renderE s (.equal A B)).1 = (renderE s A).1 ++ " = " ++ (renderE s B).1
  rw [renderE_equal_of_not_scalar s A B hB]

/-- C3 witness at two concrete `Constant` operands. -/
theorem claim_C3_witness :
    Expr.isPyScalar (Constant (.vInt 2)) = false
  ∧ (renderStr [] (opAnd (Constant (.vBool true)) (Constant (.vInt 2))) = "(TRUE) AND (2)"
  ∧ renderStr [] (opOr (Constant (.vBool true)) (Constant (.vInt 2))) = "(TRUE) OR (2)"
  ∧ renderStr [] (opAdd (Constant (.vBool true)) (Constant (.vInt 2))) = "(TRUE) + (2)"
  ∧ renderStr [] (opSub (Constant (.vBool true)) (Constant (.vInt 2))) = "(TRUE) - (2)"
  ∧ renderStr [] (opMul (Constant (.vBool true)) (Constant (.vInt 2))) = "(TRUE) * (2)"
  ∧ renderStr [] (opDiv (Constant (.vBool true)) (Constant (.vInt 2))) = "(TRUE) / (2)"
  ∧ renderStr [] (opEq (Constant (.vBool true)) (Constant (.vInt 2))) = "TRUE = 2"
  ∧ renderStr [] (opNe (Constant (.vBool true)) (Constant (.vInt 2))) = "TRUE <> 2"
  ∧ renderStr [] (opLt (Constant (.vBool true)) (Constant (.vInt 2))) = "TRUE < 2"
  ∧ renderStr [] (opLe (Constant (.vBool true)) (Constant (.vInt 2))) = "TRUE <= 2"
  ∧ renderStr [] (opGt (Constant (.vBool true)) (Constant (.vInt 2))) = "TRUE > 2"
  ∧ renderStr [] (opGe (Constant (.vBool true)) (Constant (.vInt 2))) = "TRUE >= 2") :=
  ⟨rfl, claim_C3 [] (Constant (.vBool true)) (Constant (.vInt 2)) rfl⟩

/-- C4: a boolean `Constant` renders as the upper-case keyword, an
    integer as its decimal text, and a string wrapped in a single quote
    or in a double quote when it contains a single quote, with the value
    embedded verbatim (no escaping of the chosen quote character). -/
theorem claim_C4 (b : Bool) (n : Int) (sv : String) :
    constVal (.vBool b) = (if b then "TRUE" else "FALSE")
  ∧ constVal (.vInt n) = toString n
  ∧ constVal (.vStr sv)
      = (if containsSquote sv then dquote ++ sv ++ dquote else squote ++ sv ++ squote)
  ∧ renderStr [] (Constant (.vStr sv)) = constVal (.vStr sv) := by
  refine ⟨rfl, rfl, ?_, rfl⟩
  by_cases hc : containsSquote sv <;>
    simp [constVal, quote, pyStr, hc, String.append_assoc]

/-- C5 counterexample: the claim says every value in an `IN` list is
    unconditionally wrapped in the default single quote regardless of
    type; the code calls `quote` with no quote character, which leaves a
    non-string value unquoted, so an integer element renders bare. -/
theorem claim_C5_counterexample :
    renderStr [TableObj.mk "t" none] (Expr.in_ (.field "x" (.table 0)) [.vInt 1])
      = "t.x IN (1)"
  ∧ "t.x IN (1)" ≠ "t.x IN (" ++ squote ++ "1" ++ squote ++ ")" :=
  ⟨rfl, by decide⟩

/-- C5 amended: `In`/`NotIn` render the term, the keyword, and the
    values comma-joined in order, each passed through `quote` with no
    explicit quote character: a string is wrapped in a single quote (a
    double quote when it contains a single quote, the same rule as
    `Constant`), while integers render bare and booleans render with
    Python capitalisation, unquoted. -/
theorem claim_C5_amended (s : Store) (t : Expr) (vs : List PyVal) (n : Int) (b : Bool) (sv : String) :
    renderStr s (termIn t vs)
      = renderStr s t ++ " IN ("
          ++ String.intercalate "," (vs.map (fun v => quote v none)) ++ ")"
  ∧ renderStr s (termNotIn t vs)
      = renderStr s t ++ " NOT IN ("
          ++ String.intercalate "," (vs.map (fun v => quote v none)) ++ ")"
  ∧ quote (.vInt n) none = toString n
  ∧ quote (.vBool b) none = (if b then "True" else "False")
  ∧ quote (.vStr sv) none
      = (if containsSquote sv then dquote ++ sv ++ dquote else squote ++ sv ++ squote) := by
  refine ⟨rfl, rfl, ?_, ?_, ?_⟩
  · simp [quote, pyStr, String.append_empty, String.empty_append]
  · simp [quote, pyStr, String.append_empty, String.empty_append]
  · by_cases hc : containsSquote sv <;>
      simp [quote, pyStr, hc, String.append_assoc]

/-- C6 counterexample: the claim says `t.name` returns the stored table
    name; but `Table` keeps that name only under `_name`, so the
    access `name` misses every defined member, falls through to
    `Selectable.__getattr__`, and synthesizes a `Field` named `name`
    instead of answering with the string. -/
theorem claim_C6_counterexample :
    tableGetattr [TableObj.mk "logs" none] 0 "name"
      = Attr.fieldAttr "name" (SelRef.table 0)
  ∧ tableGetattr [TableObj.mk "logs" none] 0 "name" ≠ Attr.strAttr "logs"
  ∧ tableGetattr [TableObj.mk "logs" none] 0 "alias" = Attr.strAttr "logs" :=
  ⟨rfl, by decide, rfl⟩

/-- C6 amended: any attribute access that misses the members normal
    Python lookup finds on a `Table` (`_name`, `_alias`, the `alias`
    property, `as_` and the dunder methods) synthesizes a `Field` with
    the accessed name and the table as parent; `alias` itself answers
    the alias property and is never shadowed; `name` however is not a
    defined member, so it synthesizes a `Field` rather than returning
    the name of the table.  The synthesis is a pure function of the key and
    table, so repeated access is semantically equivalent. -/
theorem claim_C6_amended (s : Store) (i : Nat) (key : String)
    (h : key ∉ ["alias", "_name", "_alias", "as_", "__init__", "__repr__", "__str__", "__getattr__"]) :
    tableGetattr s i key = Attr.fieldAttr key (SelRef.table i)
  ∧ tableGetattr s i "alias" = Attr.strAttr (tableAlias s i)
  ∧ tableGetattr s i "name" = Attr.fieldAttr "name" (SelRef.table i) := by
  simp only [List.mem_cons, List.not_mem_nil, or_false, not_or] at h
  obtain ⟨h1, h2, h3, h4, h5, h6, h7, h8⟩ := h
  refine ⟨?_, rfl, rfl⟩
  simp [tableGetattr, h1, h2, h3, h4, h5, h6, h7, h8]

/-- C6 witness at the key `id` on a table named `logs`. -/
theorem claim_C6_witness :
    ("id" ∉ ["alias", "_name", "_alias", "as_", "__init__", "__repr__", "__str__", "__getattr__"])
  ∧ (tableGetattr [TableObj.mk "logs" none] 0 "id" = Attr.fieldAttr "id" (SelRef.table 0)
  ∧ tableGetattr [TableObj.mk "logs" none] 0 "alias"
      = Attr.strAttr (tableAlias [TableObj.mk "logs" none] 0)
  ∧ tableGetattr [TableObj.mk "logs" none] 0 "name" = Attr.fieldAttr "name" (SelRef.table 0)) :=
  ⟨by decide, claim_C6_amended [TableObj.mk "logs" none] 0 "id" (by decide)⟩

/-- C7: rendering a Query whose operation was never set by `select` or
    `delete` fails: the dispatch `getattr(self, "_make_None")` is
    intercepted by `__getattr__`, which synthesizes a `Field`, and
    calling it raises `TypeError`; no partial or empty SQL string is
    ever returned, whatever the rest of the query state holds. -/
theorem claim_C7 (s : Store) (fuel : Nat) (a : Option String) (sel : Option QSel)
    (js : List JoinRec) (d onf : Bool) (ts cs : List Expr) :
    strQ s (fuel + 1) (QueryObj.mk a none sel js d onf ts cs)
      = Except.error PyErr.fieldNotCallable := rfl

/-- C8: rendering is idempotent.  A `Constant` renders to its stored
    text and re-rendering returns the identical pair; an integer
    literal stores its canonical decimal string as text; and for every
    tree two consecutive renders return equal strings — the render of
    `Equal` replaces its bare-scalar right operand by a `Constant` in
    place, but the replacement renders to the very text the first pass
    produced. -/
theorem claim_C8 (s : Store) (e : Expr) (v : PyVal) (n : Int) :
    (renderE s ((renderE s e).2)).1 = (renderE s e).1
  ∧ renderE s ((renderE s e).2) = renderE s e
  ∧ renderE s (Constant v) = (constVal v, Constant v)
  ∧ constVal (.vInt n) = toString n :=
  ⟨by rw [renderE_render_fix], renderE_render_fix s e, rfl, rfl⟩

/-- C9: the delete-only scenario renders exactly as claimed: ONLY after
    DELETE FROM, the alias of the table (defaulting to its name) after AS,
    and no WHERE clause when no criteria were added. -/
theorem claim_C9 :
    strQ [TableObj.mk "logs" none] 1 ((QueryObj.init.delete true).from_ (QSel.table 0))
      = Except.ok "DELETE FROM ONLY logs AS logs" := rfl

/-- C10: a `Field` reads the alias of its parent at render time, not at
    creation time: aliasing the table after the field was created makes
    the field render under the new alias. -/
theorem claim_C10 (nm a2 : String) (al0 : Option String) (h : a2 ≠ "") :
    renderStr (tableAs [TableObj.mk nm al0] 0 a2) (Expr.field "x" (SelRef.table 0))
      = a2 ++ "." ++ "x" := by
  simp [renderStr, renderE, selAlias, tableAlias, tableAliasRaw, tableName, tableAs, pyOr, h]

/-- C10 witness: a table created as `t`, aliased to `a2` after the
    field was created, renders the field as `a2.x`. -/
theorem claim_C10_witness :
    ("a2" : String) ≠ ""
  ∧ renderStr (tableAs [TableObj.mk "t" none] 0 "a2") (Expr.field "x" (SelRef.table 0))
      = "a2.x" :=
  ⟨by decide, claim_C10 "t" "a2" none (by decide)⟩
